import Mathlib

set_option linter.unusedVariables false

/-!
Shallow embedding of the booking core of the Flight-booking-system
repository: the `/api/book` HTTP handler (`book` in `flask_backend.py`)
and the `book_ticket` function (`flightmanagementsystem.py`), together
with the MySQL storage they run against.

Modelling conventions:
- The three tables `passengers`, `flights`, `reservations` are lists of
  records; AUTO_INCREMENT ids are explicit `next...Id` counters.
- Prices are modelled as integers (only identity, defaulting and sign of
  the stored value matter to the properties below, never rounding).
- A MySQL transaction is modelled by mutating a transaction-local copy
  `txn` of the database; `cnx.commit()` makes `txn` the new durable
  state, `cnx.rollback()` (and equally abandoning the connection without
  committing) leaves the durable state as it was.
- `cursor.lastrowid` follows the wire protocol / `mysql_insert_id()`
  semantics of mysql-connector: it is a per-statement value, set to the
  generated AUTO_INCREMENT id by an INSERT and reset to 0 by a plain
  UPDATE.
- Python truthiness of the request fields is modelled explicitly
  (`None` and `""` and `0` are falsy).
-/

/-- A row of the `flights` table. Besides the primary key we keep the
`seats_available` counter (the only column the booking core mutates) and
one representative immutable column, `flight_number`, to express frame
properties. -/
structure Flight where
  flight_id : Nat
  flight_number : String
  seats_available : Int
  deriving Repr, DecidableEq

/-- A row of the `passengers` table as inserted by both booking paths. -/
structure Passenger where
  passenger_id : Nat
  full_name : String
  age : Option Int
  gender : Option String
  email : Option String
  deriving Repr, DecidableEq

/-- A row of the `reservations` table as inserted by both booking paths. -/
structure Reservation where
  reservation_id : Nat
  flight_id : Nat
  passenger_id : Nat
  seat_number : Option String
  travel_class : Option String
  price : Int
  deriving Repr, DecidableEq

/-- The durable database state: the three tables plus the AUTO_INCREMENT
counters of `passengers` and `reservations`. -/
structure DB where
  flights : List Flight
  passengers : List Passenger
  reservations : List Reservation
  nextPassengerId : Nat
  nextReservationId : Nat
  deriving Repr, DecidableEq

/-- SELECT ... FROM flights WHERE flight_id = fid (0 or 1 row, the
primary key being flight_id; on a list this is the first match). -/
def findFlight (db : DB) (fid : Nat) : Option Flight :=
  db.flights.find? (fun g => g.flight_id == fid)

/-- Effect of `UPDATE flights SET seats_available = seats_available - 1
WHERE flight_id = fid` on one row. -/
def decIf (fid : Nat) (g : Flight) : Flight :=
  if g.flight_id = fid then { g with seats_available := g.seats_available - 1 } else g

/-- Python truthiness of an optional string (`None` and `""` are falsy). -/
def strTruthy : Option String → Bool
  | some s => s != ""
  | none => false

/-- Python truthiness of an optional numeric id (`None` and `0` are falsy). -/
def natTruthy : Option Nat → Bool
  | some n => n != 0
  | none => false

/-- A JSON value supplied for the `price` key: either a number or
something `float()` cannot convert (a non-numeric string, `null`, ...). -/
inductive PriceVal where
  | num (v : Int)
  | nonNumeric
  deriving Repr, DecidableEq

/-- Python `float(x)`: succeeds exactly on numeric values. -/
def pyFloat : PriceVal → Option Int
  | .num v => some v
  | .nonNumeric => none

/-- The JSON payload of a POST to `/api/book`, with `Option` for keys
that may be absent. -/
structure BookingPayload where
  full_name : Option String
  age : Option Int
  gender : Option String
  email : Option String
  flight_id : Option Nat
  seat_number : Option String
  travel_class : Option String
  price : Option PriceVal
  deriving Repr, DecidableEq

/-- The observable outcome of the `/api/book` handler. -/
inductive FlaskResp where
  | raised
  | validationError
  | notFound
  | soldOut
  | booked
  | storageError
  deriving Repr, DecidableEq

/-- A storage-failure injection point inside a booking call: the marked
statement raises an exception, which the source's `except` branch turns
into rollback plus an error response (`flask_backend.py` lines 83-85) or
an error string (`flightmanagementsystem.py` lines 75-76, where the
uncommitted transaction is abandoned). `noFailure` is normal execution. -/
inductive FailPoint where
  | noFailure
  | atPassengerInsert
  | atSeatsSelect
  | atReservationInsert
  | atSeatsUpdate
  | atCommit
  deriving Repr, DecidableEq

/-- Shallow embedding of the `/api/book` handler `book` of
`flask_backend.py` (lines 50-85), with a storage-failure injection
point. Statement order follows the source: `float(payload.get("price",
0.0))` runs before the required-field check and outside the
`try` block, so a non-numeric price raises an uncaught exception
(`raised`); validation happens before `get_db()` is called; inside the
transaction come the passenger INSERT, the `SELECT ... FOR UPDATE` on
the flight row, the not-found and sold-out rollbacks, the reservation
INSERT, the seats UPDATE, and the commit. -/
def bookFI (fp : FailPoint) (db : DB) (payload : BookingPayload) : DB × FlaskResp :=
  match pyFloat (payload.price.getD (.num 0)) with
  | none => (db, .raised)
  | some price =>
    if !strTruthy payload.full_name || !natTruthy payload.flight_id then
      (db, .validationError)
    else
      if fp = .atPassengerInsert then (db, .storageError) else
      let pid := db.nextPassengerId
      let txn : DB := { db with
        passengers := db.passengers ++
          [⟨pid, payload.full_name.getD "", payload.age, payload.gender, payload.email⟩],
        nextPassengerId := pid + 1 }
      if fp = .atSeatsSelect then (db, .storageError) else
      let fid := payload.flight_id.getD 0
      match findFlight txn fid with
      | none => (db, .notFound)
      | some fl =>
        if fl.seats_available ≤ 0 then (db, .soldOut)
        else
          if fp = .atReservationInsert then (db, .storageError) else
          let rid := txn.nextReservationId
          let txn : DB := { txn with
            reservations := txn.reservations ++
              [⟨rid, fid, pid, payload.seat_number,
                some (payload.travel_class.getD "Economy"), price⟩],
            nextReservationId := rid + 1 }
          if fp = .atSeatsUpdate then (db, .storageError) else
          let txn : DB := { txn with flights := txn.flights.map (decIf fid) }
          if fp = .atCommit then (db, .storageError) else
          (txn, .booked)

/-- The `/api/book` handler in normal execution. -/
def book (db : DB) (payload : BookingPayload) : DB × FlaskResp :=
  bookFI .noFailure db payload

/-- The observable outcome of `book_ticket`: the returned string,
abstracted to its four shapes. `successMsg rid` stands for
`f"Booking successful! Reservation ID: {cur.lastrowid}"`. -/
inductive TicketResp where
  | notFoundMsg
  | noSeatsMsg
  | successMsg (rid : Nat)
  | errorMsg
  deriving Repr, DecidableEq

/-- The arguments of `book_ticket` (from the gradio form). -/
structure TicketInput where
  passenger_name : String
  age : Option Int
  gender : Option String
  email : Option String
  flight_id : Nat
  seat_number : Option String
  travel_class : Option String
  price : Option Int
  deriving Repr, DecidableEq

/-- Python `int(age) if age else None` (`0` and `None` are falsy). -/
def pyIntIfTruthy : Option Int → Option Int
  | some v => if v = 0 then none else some v
  | none => none

/-- Python `float(price) if price else 0.0` (`0` and `None` are falsy). -/
def tPrice : Option Int → Int
  | some v => if v = 0 then 0 else v
  | none => 0

/-- The passenger row inserted by `book_ticket`. -/
def mkTicketPassenger (pid : Nat) (inp : TicketInput) : Passenger :=
  ⟨pid, inp.passenger_name, pyIntIfTruthy inp.age, inp.gender, inp.email⟩

/-- Shallow embedding of `book_ticket` of `flightmanagementsystem.py`
(lines 47-76), with a storage-failure injection point. There is no input
validation: the passenger INSERT comes first, then a plain
`SELECT seats_available` (no `FOR UPDATE`), the not-found and sold-out
rollbacks, the reservation INSERT, the seats UPDATE, the commit, and a
success message built from `cur.lastrowid` — read after the UPDATE
statement, which has reset it to 0. -/
def book_ticketFI (fp : FailPoint) (db : DB) (inp : TicketInput) : DB × TicketResp :=
  if fp = .atPassengerInsert then (db, .errorMsg) else
  let pid := db.nextPassengerId
  let txn : DB := { db with
    passengers := db.passengers ++ [mkTicketPassenger pid inp],
    nextPassengerId := pid + 1 }
  if fp = .atSeatsSelect then (db, .errorMsg) else
  match findFlight txn inp.flight_id with
  | none => (db, .notFoundMsg)
  | some fl =>
    if fl.seats_available ≤ 0 then (db, .noSeatsMsg)
    else
      if fp = .atReservationInsert then (db, .errorMsg) else
      let rid := txn.nextReservationId
      let txn : DB := { txn with
        reservations := txn.reservations ++
          [⟨rid, inp.flight_id, pid, inp.seat_number, inp.travel_class, tPrice inp.price⟩],
        nextReservationId := rid + 1 }
      if fp = .atSeatsUpdate then (db, .errorMsg) else
      let lastrowid := 0
      let txn : DB := { txn with flights := txn.flights.map (decIf inp.flight_id) }
      if fp = .atCommit then (db, .errorMsg) else
      (txn, .successMsg lastrowid)

/-- The gradio booking path in normal execution. -/
def book_ticket (db : DB) (inp : TicketInput) : DB × TicketResp :=
  book_ticketFI .noFailure db inp

/-- Number of reservation rows referencing flight `fid`. -/
def countRes (db : DB) (fid : Nat) : Nat :=
  (db.reservations.filter (fun r => r.flight_id == fid)).length

/-!
Concurrency model for `book_ticket`. Each call runs in its own MySQL
transaction against the shared committed database. The call is cut at
its two read/write interaction points with the shared flight row: the
passenger INSERT (which draws from the shared AUTO_INCREMENT counter),
the plain `SELECT seats_available` (no `FOR UPDATE`, so it takes no lock
and its result may be stale by the time it is used), and a final
composite step performing the check on the previously fetched value, the
reservation INSERT, the `UPDATE ... seats_available - 1` and the commit.
Making that final step atomic is conservative — it gives `book_ticket`
more atomicity than MySQL does — and the UPDATE itself is applied to the
current committed counter, exactly as a row-locking UPDATE is. Any
oversell exhibited in this model is therefore also possible in the
source. By contrast the flask handler's `SELECT ... FOR UPDATE` keeps
the flight row locked from the read to the commit, which serializes its
check-decrement sections (that path is analysed sequentially below).
-/

/-- Pending, not yet committed rows of one in-flight transaction. -/
structure Txn where
  pendPassengers : List Passenger
  pendReservations : List Reservation
  deriving Repr, DecidableEq

/-- A fresh transaction with no pending writes. -/
def emptyTxn : Txn := ⟨[], []⟩

/-- The control point a `book_ticket` call has reached. `readSeats`
records the fetched `seats_available` (`none` when the flight row was
absent), which is used later without revalidation. -/
inductive TPhase where
  | start
  | inserted (pid : Nat)
  | readSeats (pid : Nat) (res : Option Int)
  | done (r : TicketResp)
  deriving Repr, DecidableEq

/-- One statement-level step of a `book_ticket` call: shared committed
database in, thread-local phase and transaction in; updated shared
database and thread state out. A finished thread does not move. -/
def tstep (inp : TicketInput) (db : DB) : TPhase × Txn → DB × (TPhase × Txn)
  | (.start, txn) =>
      let pid := db.nextPassengerId
      ({ db with nextPassengerId := pid + 1 },
       (.inserted pid,
        { txn with pendPassengers := txn.pendPassengers ++ [mkTicketPassenger pid inp] }))
  | (.inserted pid, txn) =>
      (db, (.readSeats pid ((findFlight db inp.flight_id).map (·.seats_available)), txn))
  | (.readSeats pid res, txn) =>
      match res with
      | none => (db, (.done .notFoundMsg, emptyTxn))
      | some s =>
          if s ≤ 0 then (db, (.done .noSeatsMsg, emptyTxn))
          else
            let rid := db.nextReservationId
            let txn : Txn := { txn with pendReservations := txn.pendReservations ++
              [⟨rid, inp.flight_id, pid, inp.seat_number, inp.travel_class, tPrice inp.price⟩] }
            ({ db with
                flights := db.flights.map (decIf inp.flight_id),
                passengers := db.passengers ++ txn.pendPassengers,
                reservations := db.reservations ++ txn.pendReservations,
                nextReservationId := rid + 1 },
             (.done (.successMsg 0), emptyTxn))
  | (.done r, txn) => (db, (.done r, txn))

/-- Two `book_ticket` calls in flight against one shared database. -/
structure Sys where
  db : DB
  th1 : TPhase × Txn
  th2 : TPhase × Txn
  deriving Repr, DecidableEq

/-- Let the scheduled thread (`true` = first) take one step. -/
def schedStep (i1 i2 : TicketInput) (s : Sys) (pick : Bool) : Sys :=
  if pick then
    let r := tstep i1 s.db s.th1
    { s with db := r.1, th1 := r.2 }
  else
    let r := tstep i2 s.db s.th2
    { s with db := r.1, th2 := r.2 }

/-- Run a schedule (a list of thread picks) from a system state. -/
def runSched (i1 i2 : TicketInput) (sched : List Bool) (s : Sys) : Sys :=
  sched.foldl (schedStep i1 i2) s

/-- The two otherwise-valid concurrent requests of the last-seat
scenario, and the initial store: one flight with a single seat left. -/
def raceInput1 : TicketInput :=
  ⟨"Alice", some 30, some "F", some "a@x.com", 1, some "1A", some "Economy", some 100⟩

/-- Second concurrent request for the same last seat. -/
def raceInput2 : TicketInput :=
  ⟨"Bob", some 40, some "M", some "b@x.com", 1, some "1B", some "Economy", some 100⟩

/-- Initial store of the last-seat scenario: flight 1 has capacity 1 and
no reservations. -/
def raceDB : DB := ⟨[⟨1, "AI101", 1⟩], [], [], 1, 1⟩

/-- The interleaving in which both calls INSERT their passenger, both
then SELECT the counter (each reading 1), and each in turn passes its
stale check, inserts its reservation, decrements and commits. -/
def raceSched : List Bool := [true, false, true, false, true, false]

/-- Final system state of the last-seat race. -/
def raceFinal : Sys :=
  runSched raceInput1 raceInput2 raceSched
    ⟨raceDB, (.start, emptyTxn), (.start, emptyTxn)⟩

/-- One booking operation of either kind, applied sequentially. -/
inductive Op where
  | flaskOp (p : BookingPayload)
  | ticketOp (i : TicketInput)
  deriving Repr

/-- The durable state after one booking call. -/
def applyOp (db : DB) : Op → DB
  | .flaskOp p => (book db p).1
  | .ticketOp i => (book_ticket db i).1

/-- The durable state after a sequence of booking calls. -/
def runOps (db : DB) (ops : List Op) : DB :=
  ops.foldl applyOp db

/-- The flight id a booking operation targets. -/
def reqFid : Op → Nat
  | .flaskOp p => p.flight_id.getD 0
  | .ticketOp i => i.flight_id

/-- The conserved quantity of a flight: its remaining-seat counter plus
the number of reservation rows referencing it (`none` when the flight
does not exist). -/
def ledger (db : DB) (fid : Nat) : Option Int :=
  (findFlight db fid).map (fun fl => fl.seats_available + (countRes db fid : Int))

/-- A fresh two-seat store for concrete runs: flight 1 has capacity 2,
no passengers, no reservations. -/
def twoSeatDB : DB := ⟨[⟨1, "AI101", 2⟩], [], [], 1, 1⟩

/-- The booking request of the spec's concrete scenario, as an HTTP
payload. -/
def janePayload : BookingPayload :=
  ⟨some "Jane Doe", some 28, some "F", some "jane@x.com", some 1, some "12A",
    some "Business", some (.num 150)⟩

/-- The same booking request through the gradio form. -/
def janeTicket : TicketInput :=
  ⟨"Jane Doe", some 28, some "F", some "jane@x.com", 1, some "12A",
    some "Business", some 150⟩

/-- Uniqueness of the primary key `flight_id`, guaranteed by the
relational schema. -/
def nodupFlightIds (db : DB) : Prop :=
  (db.flights.map (fun g => g.flight_id)).Nodup

/-- A store whose only flight, number 3, is sold out. -/
def soldOutDB : DB := ⟨[⟨3, "AI303", 0⟩], [], [], 5, 7⟩

/-- A valid request against the nonexistent flight 9. -/
def ghostPayload : BookingPayload :=
  ⟨some "Ghost Rider", none, none, none, some 9, none, none, none⟩

/-- A request against the sold-out flight 3. -/
def soldOutTicket : TicketInput :=
  ⟨"No Seat", none, none, none, 3, none, none, none⟩

/-- A request whose price key holds a non-numeric value and whose
required fields are both missing. -/
def nonNumericPricePayload : BookingPayload :=
  ⟨none, none, none, none, none, none, none, some .nonNumeric⟩

/-- A `book_ticket` request whose passenger name is empty. -/
def emptyNameTicket : TicketInput :=
  ⟨"", some 30, some "M", some "x@y.z", 1, some "2B", some "Economy", some 50⟩

/-- An HTTP request whose passenger name is the empty string. -/
def emptyNamePayload : BookingPayload :=
  ⟨some "", some 30, none, none, some 1, none, none, none⟩

/-- A valid request supplying the negative price -5. -/
def negPricePayload : BookingPayload :=
  ⟨some "Neg Price", none, none, none, some 1, some "3C", none, some (.num (-5))⟩

/-- Frame relation on the flights table between the store before and
after a booking call targeting flight `fid`: same number of rows in the
same order, every row keeps its primary key and flight number, and
every row whose flight id differs from `fid` is completely unchanged. -/
def flightsFrameOk (db db' : DB) (fid : Nat) : Prop :=
  db'.flights.length = db.flights.length ∧
  ∀ j g g', db.flights.get? j = some g → db'.flights.get? j = some g' →
    (g'.flight_id = g.flight_id ∧
     g'.flight_number = g.flight_number ∧
     (g.flight_id ≠ fid → g' = g))

/-! The theorems: one per claim, with shared structural lemmas
and a closed witness instantiation for each claim theorem that has
hypotheses. -/

/-- C1 — refuted on `book_ticket` (the claim holds only for the locked
flask path): in the last-seat scenario (flight 1, capacity 1, no
reservations) there is an interleaving of two concurrent `book_ticket`
calls in which BOTH calls return the success message, two reservation
rows for the flight are committed, and `seats_available` ends at `-1` —
two successes against capacity 1, and no caller received the sold-out
answer. The plain `SELECT seats_available` (no `FOR UPDATE`) lets both
transactions read the value 1 before either decrements. -/
theorem C1_book_ticket_last_seat_oversell :
    findFlight raceDB 1 = some ⟨1, "AI101", 1⟩ ∧
    raceDB.reservations = [] ∧
    raceFinal.th1.1 = .done (.successMsg 0) ∧
    raceFinal.th2.1 = .done (.successMsg 0) ∧
    countRes raceFinal.db 1 = 2 ∧
    findFlight raceFinal.db 1 = some ⟨1, "AI101", -1⟩ := by
  decide

/-- The seats UPDATE never changes a row's primary key. -/
theorem decIf_flight_id (fid : Nat) (g : Flight) :
    (decIf fid g).flight_id = g.flight_id := by
  unfold decIf; split <;> rfl

/-- The seats UPDATE never changes a row's flight number. -/
theorem decIf_flight_number (fid : Nat) (g : Flight) :
    (decIf fid g).flight_number = g.flight_number := by
  unfold decIf; split <;> rfl

/-- Rows of other flights are untouched by the seats UPDATE. -/
theorem decIf_of_ne (fid : Nat) (g : Flight) (h : ¬ g.flight_id = fid) :
    decIf fid g = g := by
  unfold decIf; exact if_neg h

/-- The matching row loses exactly one seat in the seats UPDATE. -/
theorem decIf_of_eq (fid : Nat) (g : Flight) (h : g.flight_id = fid) :
    decIf fid g = { g with seats_available := g.seats_available - 1 } := by
  unfold decIf; exact if_pos h

/-- Looking a flight up after the seats UPDATE is looking it up before
and then applying the row update. -/
theorem find?_map_decIf (l : List Flight) (rfid fid : Nat) :
    (l.map (decIf rfid)).find? (fun g => g.flight_id == fid) =
    (l.find? (fun g => g.flight_id == fid)).map (decIf rfid) := by
  rw [List.find?_map]
  have h : ((fun g => g.flight_id == fid) ∘ decIf rfid) =
      (fun g : Flight => g.flight_id == fid) := by
    funext g
    simp [Function.comp, decIf_flight_id]
  rw [h]

/-- Case analysis of a flask booking call: either the durable state is
untouched (uncaught exception, validation failure, rollback on
not-found / sold-out, or an injected storage failure), or the call ran
to commit: then no failure was injected, the requested flight existed
with a strictly positive counter, and the committed state extends
passengers and reservations by one row each (the new reservation
referencing the requested flight) and applies the seats UPDATE. -/
theorem bookFI_cases (fp : FailPoint) (db : DB) (p : BookingPayload) :
    (bookFI fp db p).1 = db ∨
    (fp = .noFailure ∧
     ∃ fl pass r,
       findFlight db (p.flight_id.getD 0) = some fl ∧
       0 < fl.seats_available ∧
       r.flight_id = p.flight_id.getD 0 ∧
       (bookFI fp db p).1.flights = db.flights.map (decIf (p.flight_id.getD 0)) ∧
       (bookFI fp db p).1.passengers = db.passengers ++ [pass] ∧
       (bookFI fp db p).1.reservations = db.reservations ++ [r]) := by
  unfold bookFI
  dsimp only
  split
  · exact Or.inl rfl
  · split
    · exact Or.inl rfl
    · split
      · exact Or.inl rfl
      · split
        · exact Or.inl rfl
        · split
          · exact Or.inl rfl
          · split
            · exact Or.inl rfl
            · split
              · exact Or.inl rfl
              · split
                · exact Or.inl rfl
                · split
                  · exact Or.inl rfl
                  · rename_i hprice hval h1 h2 fl hfind hseats h3 h4 h5
                    refine Or.inr ⟨?_, fl, _, _, hfind, ?_, rfl, rfl, rfl, rfl⟩
                    · cases fp <;> simp_all
                    · omega

/-- Case analysis of a `book_ticket` call, analogous to `bookFI_cases`:
either the durable state is untouched, or the call committed after
seeing the requested flight with a strictly positive counter, extending
passengers and reservations by one row each and decrementing the
counter. -/
theorem book_ticketFI_cases (fp : FailPoint) (db : DB) (inp : TicketInput) :
    (book_ticketFI fp db inp).1 = db ∨
    (fp = .noFailure ∧
     ∃ fl pass r,
       findFlight db inp.flight_id = some fl ∧
       0 < fl.seats_available ∧
       r.flight_id = inp.flight_id ∧
       (book_ticketFI fp db inp).1.flights = db.flights.map (decIf inp.flight_id) ∧
       (book_ticketFI fp db inp).1.passengers = db.passengers ++ [pass] ∧
       (book_ticketFI fp db inp).1.reservations = db.reservations ++ [r]) := by
  unfold book_ticketFI
  dsimp only
  split
  · exact Or.inl rfl
  · split
    · exact Or.inl rfl
    · split
      · exact Or.inl rfl
      · split
        · exact Or.inl rfl
        · split
          · exact Or.inl rfl
          · split
            · exact Or.inl rfl
            · split
              · exact Or.inl rfl
              · rename_i h1 h2 fl hfind hseats h3 h4 h5
                refine Or.inr ⟨?_, fl, _, _, hfind, ?_, rfl, rfl, rfl, rfl⟩
                · cases fp <;> simp_all
                · omega

/-- Case analysis of one sequential booking call of either kind:
either the durable state is untouched, or the call committed — then the
requested flight existed with a strictly positive counter and the state
extends passengers and reservations by one row each (the reservation
referencing the requested flight) and applies the seats UPDATE. -/
theorem applyOp_cases (db : DB) (o : Op) :
    applyOp db o = db ∨
    ∃ fl pass r,
      findFlight db (reqFid o) = some fl ∧
      0 < fl.seats_available ∧
      r.flight_id = reqFid o ∧
      (applyOp db o).flights = db.flights.map (decIf (reqFid o)) ∧
      (applyOp db o).passengers = db.passengers ++ [pass] ∧
      (applyOp db o).reservations = db.reservations ++ [r] := by
  cases o with
  | flaskOp p =>
      rcases bookFI_cases .noFailure db p with h | ⟨_, fl, pass, r, h⟩
      · exact Or.inl h
      · exact Or.inr ⟨fl, pass, r, h⟩
  | ticketOp i =>
      rcases book_ticketFI_cases .noFailure db i with h | ⟨_, fl, pass, r, h⟩
      · exact Or.inl h
      · exact Or.inr ⟨fl, pass, r, h⟩

/-- One booking call of either kind, successful or not, preserves the
ledger of every flight: a commit trades one seat for one reservation
row, every other outcome changes nothing. -/
theorem ledger_applyOp (db : DB) (o : Op) (fid : Nat) :
    ledger (applyOp db o) fid = ledger db fid := by
  rcases applyOp_cases db o with h | ⟨fl, pass, r, hfl, hpos, hrf, hflights, hpass, hres⟩
  · rw [h]
  · have hfind' : findFlight (applyOp db o) fid = (findFlight db fid).map (decIf (reqFid o)) := by
      unfold findFlight
      rw [hflights, find?_map_decIf]
    have hcount : (countRes (applyOp db o) fid : Int) =
        (countRes db fid : Int) + (if r.flight_id == fid then 1 else 0) := by
      unfold countRes
      rw [hres, List.filter_append]
      simp only [List.length_append]
      rcases hb : (r.flight_id == fid) with _ | _
      · simp [List.filter, hb]
      · simp [List.filter, hb]
    unfold ledger
    rw [hfind']
    rcases hmap : findFlight db fid with _ | fl0
    · rfl
    · simp only [Option.map_some']
      congr 1
      have hfl0id : fl0.flight_id = fid := by
        have := List.find?_some hmap
        simpa using this
      by_cases hep : fid = reqFid o
      · rw [decIf_of_eq _ _ (by rw [hfl0id, hep])]
        have hr : (r.flight_id == fid) = true := by simp [hrf, hep]
        rw [hcount, hr]
        simp
      · rw [decIf_of_ne _ _ (by rw [hfl0id]; exact hep)]
        have hr : (r.flight_id == fid) = false := by
          simp [hrf]
          intro hc
          exact hep hc.symm
        rw [hcount, hr]
        simp

/-- C2 — counter conservation: if a flight's remaining seats plus its
reservation count equal `N` (its initial capacity), then after any
sequence of booking operations — through either the flask handler or
`book_ticket` — they still equal `N`. -/
theorem C2_counter_conservation (db : DB) (ops : List Op) (fid : Nat) (N : Int)
    (h : ledger db fid = some N) :
    ledger (runOps db ops) fid = some N := by
  induction ops generalizing db with
  | nil => exact h
  | cons o rest ih =>
      exact ih (applyOp db o) ((ledger_applyOp db o fid).trans h)

/-- Witness for C2: flight 1 starts with 2 seats and no reservations
(ledger 2), and after one flask booking and one `book_ticket` booking
the ledger is still 2. -/
theorem C2_counter_conservation_witness :
    ledger (runOps twoSeatDB [.flaskOp janePayload, .ticketOp janeTicket]) 1 = some 2 :=
  C2_counter_conservation twoSeatDB [.flaskOp janePayload, .ticketOp janeTicket] 1 2 (by decide)

/-- C3 — atomicity on failure: a storage failure injected at any point
inside either booking call (at the passenger INSERT, the seats SELECT,
the reservation INSERT, the seats UPDATE, or the commit) leaves the
durable state exactly as before the call: the flask `except` branch
rolls the transaction back, and `book_ticket` abandons its uncommitted
transaction, so no new passenger, changed counter, or new reservation
attributable to the call persists. -/
theorem C3_failure_atomicity (fp : FailPoint) (db : DB) (p : BookingPayload)
    (i : TicketInput) (h : fp ≠ .noFailure) :
    (bookFI fp db p).1 = db ∧ (book_ticketFI fp db i).1 = db := by
  constructor
  · rcases bookFI_cases fp db p with hc | ⟨hfp, _⟩
    · exact hc
    · exact absurd hfp h
  · rcases book_ticketFI_cases fp db i with hc | ⟨hfp, _⟩
    · exact hc
    · exact absurd hfp h

/-- Witness for C3: a failure injected at the reservation INSERT of each
path leaves the two-seat store untouched. -/
theorem C3_failure_atomicity_witness :
    FailPoint.atReservationInsert ≠ FailPoint.noFailure ∧
    ((bookFI .atReservationInsert twoSeatDB janePayload).1 = twoSeatDB ∧
     (book_ticketFI .atReservationInsert twoSeatDB janeTicket).1 = twoSeatDB) :=
  ⟨by decide,
   C3_failure_atomicity .atReservationInsert twoSeatDB janePayload janeTicket (by decide)⟩

/-- One sequential booking call keeps primary keys unique and all seat
counters non-negative: a decrement happens only after the call has seen
the (unique) requested row with a strictly positive counter. -/
theorem seats_nonneg_applyOp (db : DB) (o : Op)
    (hnd : nodupFlightIds db)
    (h : ∀ g ∈ db.flights, 0 ≤ g.seats_available) :
    nodupFlightIds (applyOp db o) ∧
    ∀ g ∈ (applyOp db o).flights, 0 ≤ g.seats_available := by
  rcases applyOp_cases db o with hc | ⟨fl, pass, r, hfl, hpos, hrf, hflights, hpass, hres⟩
  · rw [hc]; exact ⟨hnd, h⟩
  · have hids : ((fun g : Flight => g.flight_id) ∘ decIf (reqFid o)) =
        fun g : Flight => g.flight_id := by
      funext g
      simp [Function.comp, decIf_flight_id]
    constructor
    · unfold nodupFlightIds
      rw [hflights, List.map_map, hids]
      exact hnd
    · intro g hg
      rw [hflights] at hg
      rcases List.mem_map.mp hg with ⟨g0, hg0, rfl⟩
      by_cases he : g0.flight_id = reqFid o
      · have hflmem : fl ∈ db.flights := List.mem_of_find?_eq_some hfl
        have hflid : fl.flight_id = reqFid o := by
          have := List.find?_some hfl
          simpa using this
        have hgfl : g0 = fl :=
          List.inj_on_of_nodup_map hnd hg0 hflmem (by rw [he, hflid])
        subst hgfl
        rw [decIf_of_eq _ _ he]
        simp
        omega
      · rw [decIf_of_ne _ _ he]
        exact h g0 hg0

/-- C8 — non-negative counter: starting from any store whose flight
rows have unique primary keys and non-negative `seats_available`, no
sequence of booking operations (through either path, run sequentially)
ever drives any flight's counter negative, because each decrement is
guarded by the strictly-positive check on the row just read. -/
theorem C8_seats_never_negative (db : DB) (ops : List Op)
    (hnd : nodupFlightIds db)
    (h : ∀ g ∈ db.flights, 0 ≤ g.seats_available) :
    ∀ g ∈ (runOps db ops).flights, 0 ≤ g.seats_available := by
  induction ops generalizing db with
  | nil => exact h
  | cons o rest ih =>
      rcases seats_nonneg_applyOp db o hnd h with ⟨hnd', h'⟩
      exact ih (applyOp db o) hnd' h'

/-- Witness for C8: three bookings against the two-seat store (the
third is refused with the sold-out answer) leave the counter at 0, not
below. -/
theorem C8_seats_never_negative_witness :
    nodupFlightIds twoSeatDB ∧
    (∀ g ∈ twoSeatDB.flights, 0 ≤ g.seats_available) ∧
    (∀ g ∈ (runOps twoSeatDB
        [.flaskOp janePayload, .ticketOp janeTicket, .ticketOp janeTicket]).flights,
      0 ≤ g.seats_available) :=
  ⟨by unfold nodupFlightIds; decide, by decide,
   C8_seats_never_negative twoSeatDB
     [.flaskOp janePayload, .ticketOp janeTicket, .ticketOp janeTicket]
     (by unfold nodupFlightIds; decide) (by decide)⟩

/-- Exact result of a flask booking call that reaches commit: the
requested flight exists with a positive counter and the inputs are
valid, so the handler inserts the passenger and the reservation,
decrements the counter and answers `booked`. -/
theorem book_success_state (db : DB) (p : BookingPayload) (v : Int) (fl : Flight)
    (hp : pyFloat (p.price.getD (.num 0)) = some v)
    (hn : strTruthy p.full_name = true)
    (hf : natTruthy p.flight_id = true)
    (hfind : findFlight db (p.flight_id.getD 0) = some fl)
    (hpos : 0 < fl.seats_available) :
    book db p =
      ({ flights := db.flights.map (decIf (p.flight_id.getD 0)),
         passengers := db.passengers ++
           [⟨db.nextPassengerId, p.full_name.getD "", p.age, p.gender, p.email⟩],
         reservations := db.reservations ++
           [⟨db.nextReservationId, p.flight_id.getD 0, db.nextPassengerId, p.seat_number,
             some (p.travel_class.getD "Economy"), v⟩],
         nextPassengerId := db.nextPassengerId + 1,
         nextReservationId := db.nextReservationId + 1 }, .booked) := by
  have hfind' : findFlight
      { db with
        passengers := db.passengers ++
          [⟨db.nextPassengerId, p.full_name.getD "", p.age, p.gender, p.email⟩],
        nextPassengerId := db.nextPassengerId + 1 } (p.flight_id.getD 0) = some fl := hfind
  have hpos' : ¬ fl.seats_available ≤ 0 := not_le.mpr hpos
  simp [book, bookFI, hp, hn, hf, hfind', hpos']

/-- Exact result of a `book_ticket` call that reaches commit: the
passenger and reservation are inserted, the counter decremented, and
the success message carries `cur.lastrowid` as read after the UPDATE,
namely 0. -/
theorem ticket_success_state (db : DB) (i : TicketInput) (fl : Flight)
    (hfind : findFlight db i.flight_id = some fl)
    (hpos : 0 < fl.seats_available) :
    book_ticket db i =
      ({ flights := db.flights.map (decIf i.flight_id),
         passengers := db.passengers ++ [mkTicketPassenger db.nextPassengerId i],
         reservations := db.reservations ++
           [⟨db.nextReservationId, i.flight_id, db.nextPassengerId, i.seat_number,
             i.travel_class, tPrice i.price⟩],
         nextPassengerId := db.nextPassengerId + 1,
         nextReservationId := db.nextReservationId + 1 }, .successMsg 0) := by
  have hfind' : findFlight
      { db with
        passengers := db.passengers ++ [mkTicketPassenger db.nextPassengerId i],
        nextPassengerId := db.nextPassengerId + 1 } i.flight_id = some fl := hfind
  have hpos' : ¬ fl.seats_available ≤ 0 := not_le.mpr hpos
  simp [book_ticket, book_ticketFI, hfind', hpos']

/-- The price `book_ticket` stores coincides with "supplied value, else
0" (a falsy supplied 0 also stores 0). -/
theorem tPrice_eq_getD (p : Option Int) : tPrice p = p.getD 0 := by
  cases p with
  | none => rfl
  | some v =>
      by_cases h : v = 0
      · simp [tPrice, h]
      · simp [tPrice, h]

/-- C6 — not-found and sold-out: with inputs that pass the flask
handler's earlier stages (convertible price, truthy name and flight id),
a booking against an absent flight answers `notFound` and one against a
flight with `seats_available ≤ 0` answers `soldOut`; `book_ticket`
behaves the same with its two message strings and needs no input
hypotheses. In all four cases the returned store is exactly the input
store: the transaction is rolled back and no flight counter mutated. -/
theorem C6_notfound_soldout (db : DB) (p : BookingPayload) (i : TicketInput) (v : Int)
    (hp : pyFloat (p.price.getD (.num 0)) = some v)
    (hn : strTruthy p.full_name = true)
    (hf : natTruthy p.flight_id = true) :
    (findFlight db (p.flight_id.getD 0) = none → book db p = (db, .notFound)) ∧
    (∀ fl, findFlight db (p.flight_id.getD 0) = some fl → fl.seats_available ≤ 0 →
      book db p = (db, .soldOut)) ∧
    (findFlight db i.flight_id = none → book_ticket db i = (db, .notFoundMsg)) ∧
    (∀ fl, findFlight db i.flight_id = some fl → fl.seats_available ≤ 0 →
      book_ticket db i = (db, .noSeatsMsg)) := by
  refine ⟨?_, ?_, ?_, ?_⟩
  · intro hnone
    have hnone' : findFlight { db with
        passengers := db.passengers ++
          [⟨db.nextPassengerId, p.full_name.getD "", p.age, p.gender, p.email⟩],
        nextPassengerId := db.nextPassengerId + 1 } (p.flight_id.getD 0) = none := hnone
    simp [book, bookFI, hp, hn, hf, hnone']
  · intro fl hfl hle
    have hfl' : findFlight { db with
        passengers := db.passengers ++
          [⟨db.nextPassengerId, p.full_name.getD "", p.age, p.gender, p.email⟩],
        nextPassengerId := db.nextPassengerId + 1 } (p.flight_id.getD 0) = some fl := hfl
    simp [book, bookFI, hp, hn, hf, hfl', hle]
  · intro hnone
    have hnone' : findFlight { db with
        passengers := db.passengers ++ [mkTicketPassenger db.nextPassengerId i],
        nextPassengerId := db.nextPassengerId + 1 } i.flight_id = none := hnone
    simp [book_ticket, book_ticketFI, hnone']
  · intro fl hfl hle
    have hfl' : findFlight { db with
        passengers := db.passengers ++ [mkTicketPassenger db.nextPassengerId i],
        nextPassengerId := db.nextPassengerId + 1 } i.flight_id = some fl := hfl
    simp [book_ticket, book_ticketFI, hfl', hle]

/-- Witness for C6 at the sold-out store, the ghost request (absent
flight) and the sold-out request. -/
theorem C6_notfound_soldout_witness :
    (findFlight soldOutDB (ghostPayload.flight_id.getD 0) = none →
      book soldOutDB ghostPayload = (soldOutDB, .notFound)) ∧
    (∀ fl, findFlight soldOutDB (ghostPayload.flight_id.getD 0) = some fl →
      fl.seats_available ≤ 0 → book soldOutDB ghostPayload = (soldOutDB, .soldOut)) ∧
    (findFlight soldOutDB soldOutTicket.flight_id = none →
      book_ticket soldOutDB soldOutTicket = (soldOutDB, .notFoundMsg)) ∧
    (∀ fl, findFlight soldOutDB soldOutTicket.flight_id = some fl →
      fl.seats_available ≤ 0 →
      book_ticket soldOutDB soldOutTicket = (soldOutDB, .noSeatsMsg)) :=
  C6_notfound_soldout soldOutDB ghostPayload soldOutTicket 0 rfl rfl rfl

/-- C9 — price coercion precedes validation: when the `price` key holds
a non-numeric value, `float(payload.get("price", 0.0))` raises before
the required-field check ever runs and outside the `try` block, so the
handler ends with an uncaught exception rather than the validation
response — no matter whether `full_name` or `flight_id` is also
missing — and the store is untouched. -/
theorem C9_price_coercion_before_validation (db : DB) (p : BookingPayload)
    (h : p.price = some .nonNumeric) :
    book db p = (db, .raised) := by
  simp [book, bookFI, h, pyFloat]

/-- Witness for C9: even with `full_name` and `flight_id` both missing,
the non-numeric price makes the handler raise instead of returning the
validation error. -/
theorem C9_price_coercion_before_validation_witness :
    nonNumericPricePayload.price = some .nonNumeric ∧
    nonNumericPricePayload.full_name = none ∧
    nonNumericPricePayload.flight_id = none ∧
    book twoSeatDB nonNumericPricePayload = (twoSeatDB, .raised) :=
  ⟨rfl, rfl, rfl,
   C9_price_coercion_before_validation twoSeatDB nonNumericPricePayload rfl⟩

/-- C4 — counterexample: `book_ticket` performs no input validation. A
call whose passenger name is the empty string is not rejected with a
validation error: it runs to commit, inserting a passenger row with an
empty name and a reservation row, and decrementing the counter. -/
theorem C4_counterexample :
    emptyNameTicket.passenger_name = "" ∧
    book_ticket twoSeatDB emptyNameTicket =
      (⟨[⟨1, "AI101", 1⟩],
        [⟨1, "", some 30, some "M", some "x@y.z"⟩],
        [⟨1, 1, 1, some "2B", some "Economy", 50⟩], 2, 2⟩, .successMsg 0) := by
  decide

/-- C4 (amended) — only the flask handler validates: provided the price
field converts (otherwise the conversion raises first, see C9), a
request with a falsy `full_name` or a falsy `flight_id` is answered
with the validation error before the database connection is opened, the
store unchanged; `book_ticket` performs no such validation (see the
counterexample). -/
theorem C4_flask_validation (db : DB) (p : BookingPayload) (v : Int)
    (hp : pyFloat (p.price.getD (.num 0)) = some v)
    (h : strTruthy p.full_name = false ∨ natTruthy p.flight_id = false) :
    book db p = (db, .validationError) := by
  rcases h with h | h
  · simp [book, bookFI, hp, h]
  · simp [book, bookFI, hp, h]

/-- Witness for the amended C4: an empty name yields the validation
error and leaves the store untouched. -/
theorem C4_flask_validation_witness :
    pyFloat (emptyNamePayload.price.getD (.num 0)) = some 0 ∧
    strTruthy emptyNamePayload.full_name = false ∧
    book twoSeatDB emptyNamePayload = (twoSeatDB, .validationError) :=
  ⟨rfl, rfl, C4_flask_validation twoSeatDB emptyNamePayload 0 rfl (Or.inl rfl)⟩

/-- C5 — refuted: a committing flask call answers only
`{"status":"booked"}`, a response carrying no reservation identifier at
all, and a committing `book_ticket` call reports `Reservation ID: 0`
because `cur.lastrowid` is read after the seats UPDATE (which resets
the per-statement insert id to 0), even though the reservation row this
very call created received id 1. -/
theorem C5_confirmation_lacks_reservation_id :
    (book twoSeatDB janePayload).2 = .booked ∧
    (book_ticket twoSeatDB janeTicket).2 = .successMsg 0 ∧
    (book_ticket twoSeatDB janeTicket).1.reservations =
      [⟨1, 1, 1, some "12A", some "Business", 150⟩] ∧
    (0 : Nat) ≠ 1 := by
  decide

/-- C7 — counterexample: a supplied negative price is not guarded to 0.
The call commits and the reservation row stores the negative price. -/
theorem C7_counterexample :
    negPricePayload.price = some (.num (-5)) ∧
    book twoSeatDB negPricePayload =
      (⟨[⟨1, "AI101", 1⟩],
        [⟨1, "Neg Price", none, none, none⟩],
        [⟨1, 1, 1, some "3C", some "Economy", -5⟩], 2, 2⟩, .booked) ∧
    ((-5 : Int) < 0) := by
  decide

/-- C7 (amended) — price defaulting without a negative guard: on a
committing call the stored price is 0 when the price was unspecified
(flask: key absent; `book_ticket`: falsy, i.e. `None` or 0), and
otherwise is exactly the supplied value — negative values included; no
guard to 0 exists in either path. -/
theorem C7_price_default_no_guard (db : DB) (p : BookingPayload) (i : TicketInput)
    (v : Int) (fl fl2 : Flight)
    (hp : pyFloat (p.price.getD (.num 0)) = some v)
    (hn : strTruthy p.full_name = true)
    (hf : natTruthy p.flight_id = true)
    (hfind : findFlight db (p.flight_id.getD 0) = some fl)
    (hpos : 0 < fl.seats_available)
    (hfind2 : findFlight db i.flight_id = some fl2)
    (hpos2 : 0 < fl2.seats_available) :
    (p.price = none → v = 0) ∧
    (∃ r, (book db p).1.reservations = db.reservations ++ [r] ∧ r.price = v) ∧
    (∃ r, (book_ticket db i).1.reservations = db.reservations ++ [r] ∧
      r.price = i.price.getD 0) := by
  refine ⟨?_, ?_, ?_⟩
  · intro hnone
    rw [hnone] at hp
    simp [pyFloat] at hp
    omega
  · exact ⟨⟨db.nextReservationId, p.flight_id.getD 0, db.nextPassengerId, p.seat_number,
      some (p.travel_class.getD "Economy"), v⟩,
      by rw [book_success_state db p v fl hp hn hf hfind hpos], rfl⟩
  · exact ⟨⟨db.nextReservationId, i.flight_id, db.nextPassengerId, i.seat_number,
      i.travel_class, tPrice i.price⟩,
      by rw [ticket_success_state db i fl2 hfind2 hpos2],
      tPrice_eq_getD i.price⟩

/-- Witness for the amended C7 at the two-seat store: the flask call
stores the supplied 150 and the `book_ticket` call stores its supplied
price as well. -/
theorem C7_price_default_no_guard_witness :
    (janePayload.price = none → (150 : Int) = 0) ∧
    (∃ r, (book twoSeatDB janePayload).1.reservations =
      twoSeatDB.reservations ++ [r] ∧ r.price = 150) ∧
    (∃ r, (book_ticket twoSeatDB janeTicket).1.reservations =
      twoSeatDB.reservations ++ [r] ∧ r.price = janeTicket.price.getD 0) :=
  C7_price_default_no_guard twoSeatDB janePayload janeTicket 150
    ⟨1, "AI101", 2⟩ ⟨1, "AI101", 2⟩ rfl rfl rfl rfl (by decide) rfl (by decide)

/-- The frame relation follows from the two possible shapes of the
flights table after a call: unchanged, or mapped through the seats
UPDATE for the requested flight. -/
theorem flightsFrame_of_shape (db db' : DB) (fid : Nat)
    (h : db'.flights = db.flights ∨ db'.flights = db.flights.map (decIf fid)) :
    flightsFrameOk db db' fid := by
  rcases h with h | h
  · refine ⟨by rw [h], ?_⟩
    intro j g g' hg hg'
    rw [h, hg] at hg'
    injection hg' with hgg
    subst hgg
    exact ⟨rfl, rfl, fun _ => rfl⟩
  · refine ⟨by rw [h, List.length_map], ?_⟩
    intro j g g' hg hg'
    rw [h, List.get?_map, hg] at hg'
    simp only [Option.map_some'] at hg'
    injection hg' with hgg
    subst hgg
    exact ⟨decIf_flight_id _ _, decIf_flight_number _ _, fun hne => decIf_of_ne _ _ hne⟩

/-- C10 — frame of a booking: a call of either kind, whatever its
outcome, can change only the passengers table, the reservations table
and the `seats_available` counter of the single requested flight; the
flights table keeps its length and order, every flight other than the
requested one is bit-for-bit unchanged, and even the requested flight
keeps its primary key and flight number. -/
theorem C10_frame (db : DB) (p : BookingPayload) (i : TicketInput) :
    flightsFrameOk db (book db p).1 (p.flight_id.getD 0) ∧
    flightsFrameOk db (book_ticket db i).1 i.flight_id := by
  constructor
  · apply flightsFrame_of_shape
    rcases applyOp_cases db (.flaskOp p) with h | ⟨fl, pass, r, hfl, hpos, hrf, hflights, _, _⟩
    · exact Or.inl (congrArg DB.flights h)
    · exact Or.inr hflights
  · apply flightsFrame_of_shape
    rcases applyOp_cases db (.ticketOp i) with h | ⟨fl, pass, r, hfl, hpos, hrf, hflights, _, _⟩
    · exact Or.inl (congrArg DB.flights h)
    · exact Or.inr hflights

/-- Witness for C10: the frame relation holds concretely for a flask
booking and a `book_ticket` booking of Jane against the two-seat
store. -/
theorem C10_frame_witness :
    flightsFrameOk twoSeatDB (book twoSeatDB janePayload).1 1 ∧
    flightsFrameOk twoSeatDB (book_ticket twoSeatDB janeTicket).1 1 :=
  C10_frame twoSeatDB janePayload janeTicket

